import Mathlib

/-!
Shallow embedding of the easy-logger library (package `logger` of
jdroa1998/easy-logger) and proofs of the specification claims about it.

The embedding follows the Go source:
  * `level.go`   — the `Level` type, `ParseLevel`, `Level.String`.
  * `logger.go`  — `Config`, `DefaultConfig`, `New`, `ServiceName`,
    `SetServiceName`, `WithFields`, `SetLevel`, and the commit path
    `LogBuilder.Msg` (which calls zerolog's `Event.Msgf`, i.e.
    `fmt.Sprintf` followed by the level check and a write to the sink).

Go values reaching the logger as fields are modelled by `GoValue`.
Heap-allocated `*Logger` values are modelled by an explicit store
(`World.loggers`, addresses are list indices); the package-global
`zerolog.TimeFieldFormat` mutated by `New` is `World.timeFieldFormat`.
A committed record is returned as `Option Record` (`none` when the level
filter drops the event and nothing is written to the sink).
-/

/-- A Go value attached to a log field (the `any` arguments of the API). -/
inductive GoValue where
  | str : String → GoValue
  | int : Int → GoValue
  | bool : Bool → GoValue
deriving DecidableEq, Repr, Inhabited

/-- Go type name of a value, as `fmt` prints it in error markers. -/
def GoValue.typeName : GoValue → String
  | .str _ => "string"
  | .int _ => "int"
  | .bool _ => "bool"

/-- Default (`%v`-style) rendering of a value. -/
def GoValue.render : GoValue → String
  | .str s => s
  | .int n => toString n
  | .bool b => if b then "true" else "false"

/-- `logger.Level` is an `int8`; the named constants are zerolog's values. -/
abbrev Level := Int

def TraceLevel : Level := -1
def DebugLevel : Level := 0
def InfoLevel : Level := 1
def WarnLevel : Level := 2
def ErrorLevel : Level := 3
def FatalLevel : Level := 4
def PanicLevel : Level := 5

/-- The closed set of named levels, in severity order. -/
def namedLevels : List Level :=
  [TraceLevel, DebugLevel, InfoLevel, WarnLevel, ErrorLevel, FatalLevel, PanicLevel]

/-- `strings.ToLower`; on the ASCII level names used here Go's Unicode
simple mapping and ASCII lowercasing agree. -/
def toLowerGo (s : String) : String := ⟨s.data.map Char.toLower⟩

/-- Level names recognised by `ParseLevel` (after lowercasing). -/
def recognizedNames : List String :=
  ["debug", "info", "warn", "warning", "error", "fatal", "panic", "trace"]

/-- `ParseLevel` from `level.go`: lowercases, matches the closed name set,
returns `(InfoLevel, an error)` otherwise.  The `Option String` is the Go
`error` result (`none` is `nil`). -/
def ParseLevel (s : String) : Level × Option String :=
  let ls := toLowerGo s
  if ls = "debug" then (DebugLevel, none)
  else if ls = "info" then (InfoLevel, none)
  else if ls = "warn" ∨ ls = "warning" then (WarnLevel, none)
  else if ls = "error" then (ErrorLevel, none)
  else if ls = "fatal" then (FatalLevel, none)
  else if ls = "panic" then (PanicLevel, none)
  else if ls = "trace" then (TraceLevel, none)
  else (InfoLevel, some ("invalid log level: " ++ ls))

/-- `Level.String` from `level.go`. -/
def levelString (l : Level) : String :=
  if l = DebugLevel then "debug"
  else if l = InfoLevel then "info"
  else if l = WarnLevel then "warn"
  else if l = ErrorLevel then "error"
  else if l = FatalLevel then "fatal"
  else if l = PanicLevel then "panic"
  else if l = TraceLevel then "trace"
  else "unknown"

/-!  A fragment of Go's `fmt.Sprintf`, as invoked by zerolog's
`Event.Msgf`.  The verbs the repository's tests and examples use
(`%d`, `%s`, `%t`, `%v`, `%%`) are modelled, together with `fmt`'s
markers for missing arguments, extra arguments, a bare trailing `%`,
and a verb applied to a value of the wrong type. -/

/-- One verb applied to one argument, as `fmt` renders it. -/
def fmtVerb (c : Char) (v : GoValue) : String :=
  match c, v with
  | 'd', .int n => toString n
  | 's', .str s => s
  | 't', .bool b => if b then "true" else "false"
  | 'v', v => v.render
  | c, v => "%!" ++ c.toString ++ "(" ++ v.typeName ++ "=" ++ v.render ++ ")"

/-- The `%!(EXTRA ...)` marker `fmt` appends for unconsumed arguments. -/
def extrasMark : List GoValue → List Char
  | [] => []
  | vs =>
      ("%!(EXTRA " ++
        String.intercalate ", " (vs.map (fun v => v.typeName ++ "=" ++ v.render)) ++
        ")").data

/-- Core scanner of the `Sprintf` model, over the template's characters. -/
def runFmt : List Char → List GoValue → List Char
  | [], vs => extrasMark vs
  | c :: rest, vs =>
      if c = '%' then
        match rest with
        | [] => "%!(NOVERB)".data ++ extrasMark vs
        | c2 :: rest2 =>
            if c2 = '%' then '%' :: runFmt rest2 vs
            else
              match vs with
              | [] => ("%!" ++ c2.toString ++ "(MISSING)").data ++ runFmt rest2 []
              | v :: vs2 => (fmtVerb c2 v).data ++ runFmt rest2 vs2
      else c :: runFmt rest vs

/-- `fmt.Sprintf(t, args...)` (restricted to the modelled verbs). -/
def sprintf (t : String) (args : List GoValue) : String :=
  ⟨runFmt t.data args⟩

/-- `logger.Config` from `logger.go`.  `Output` is an `io.Writer`
identity: `none` is Go's `nil`, `some k` the identity of a concrete
sink (index `stderrSink` is `os.Stderr`). -/
structure Config where
  level : Level
  pretty : Bool
  withCaller : Bool
  output : Option Nat
  timeFormat : String
  serviceName : String
deriving DecidableEq, Repr, Inhabited

/-- The sink identity of `os.Stderr`. -/
def stderrSink : Nat := 0

/-- Go's `time.RFC3339` layout string. -/
def rfc3339 : String := "2006-01-02T15:04:05Z07:00"

/-- `DefaultConfig` from `logger.go`. -/
def DefaultConfig : Config :=
  { level := InfoLevel
    pretty := false
    withCaller := true
    output := some stderrSink
    timeFormat := rfc3339
    serviceName := "" }

/-- The state of one `logger.Logger` allocation.  `ctxFields` is the
field set frozen into the wrapped `zerolog.Logger`'s context (it holds
the `service` entry written by `New` and any entries appended by
`WithFields`); `serviceName` is the separate struct field read by
`ServiceName()`. -/
structure Logger where
  level : Level
  ctxFields : List (String × GoValue)
  withCaller : Bool
  pretty : Bool
  output : Nat
  serviceName : String
deriving DecidableEq, Repr, Inhabited

/-- The mutable store: every `*Logger` allocation (addresses are
indices) plus the package-global `zerolog.TimeFieldFormat`. -/
structure World where
  loggers : List Logger
  timeFieldFormat : String
deriving DecidableEq, Repr, Inhabited

/-- Dereference a logger address. -/
def loggerAt (w : World) (i : Nat) : Logger := w.loggers.getD i default

/-- `New` from `logger.go`: resolves a `nil` output to `os.Stderr` and an
empty service name to `"UNKNOWN-SERVICE"`, freezes the context (level,
timestamp hook, `service` field, optional caller), selects the encoding,
assigns `zerolog.TimeFieldFormat = cfg.TimeFormat` (a package-global side
effect), and allocates the `Logger`.  Returns the new address. -/
def New (cfg : Config) (w : World) : Nat × World :=
  let out := cfg.output.getD stderrSink
  let sn := if cfg.serviceName = "" then "UNKNOWN-SERVICE" else cfg.serviceName
  let l : Logger :=
    { level := cfg.level
      ctxFields := [("service", GoValue.str sn)]
      withCaller := cfg.withCaller
      pretty := cfg.pretty
      output := out
      serviceName := sn }
  (w.loggers.length,
   { loggers := w.loggers ++ [l], timeFieldFormat := cfg.timeFormat })

/-- `ServiceName` from `logger.go`: reads the struct field. -/
def ServiceName (w : World) (i : Nat) : String := (loggerAt w i).serviceName

/-- `SetServiceName` from `logger.go`: assigns `l.serviceName = name`.
It does not touch the zerolog context (`ctxFields`), exactly as in the
source. -/
def SetServiceName (w : World) (i : Nat) (name : String) : World :=
  { w with loggers := w.loggers.set i { loggerAt w i with serviceName := name } }

/-- `SetLevel` from `logger.go`: `l.zl = l.zl.Level(level)`. -/
def SetLevel (w : World) (i : Nat) (lv : Level) : World :=
  { w with loggers := w.loggers.set i { loggerAt w i with level := lv } }

/-- `WithFields` from `logger.go`: appends the supplied entries to a copy
of the parent's zerolog context (`Context.Interface` appends, it never
replaces an existing key) and allocates a fresh `Logger` carrying the
parent's service name.  The supplied mapping is taken as a list, one
iteration order of the Go map.  Returns the child's address. -/
def WithFields (w : World) (i : Nat) (fs : List (String × GoValue)) : Nat × World :=
  let p := loggerAt w i
  let c : Logger := { p with ctxFields := p.ctxFields ++ fs }
  (w.loggers.length, { w with loggers := w.loggers ++ [c] })

/-- One record as committed to the sink.  `timeFormat` is the layout the
timestamp is rendered with: zerolog reads the package-global
`TimeFieldFormat` at commit time. -/
structure Record where
  level : Level
  fields : List (String × GoValue)
  message : String
  timeFormat : String
deriving DecidableEq, Repr, Inhabited

/-- The commit path `LogBuilder.Msg` (zerolog `Event.Msgf`): the event
created by the per-level factory at level `candidate` is live iff
`candidate >= l.level && candidate >= GlobalLevel()` (the global level
is its default `TraceLevel`; the repository never changes it); a live
event formats the message with `Sprintf` and writes one record — context
fields, builder fields, message, timestamp — to the sink; a dropped
event writes nothing (`none`). -/
def Msg (w : World) (i : Nat) (candidate : Level)
    (builderFields : List (String × GoValue)) (t : String) (args : List GoValue) :
    Option Record :=
  let l := loggerAt w i
  if l.level ≤ candidate ∧ TraceLevel ≤ candidate then
    some { level := candidate
           fields := l.ctxFields ++ builderFields
           message := sprintf t args
           timeFormat := w.timeFieldFormat }
  else none

/-- The empty store (no loggers yet; zerolog's own default global
time-field format). -/
def world0 : World := { loggers := [], timeFieldFormat := rfc3339 }

/-! ### Store lemmas -/

/-- Reading a freshly appended allocation returns it. -/
theorem getD_append_length {α : Type _} (xs : List α) (a : α) (ys : List α) (d : α) :
    (xs ++ a :: ys).getD xs.length d = a := by
  induction xs with
  | nil => rfl
  | cons x xs ih => simpa using ih

/-- Appending allocations does not change existing ones. -/
theorem getD_append_lt {α : Type _} (xs ys : List α) (i : Nat) (d : α)
    (h : i < xs.length) : (xs ++ ys).getD i d = xs.getD i d := by
  induction xs generalizing i with
  | nil => simp at h
  | cons x xs ih =>
      cases i with
      | zero => rfl
      | succ j =>
          simp only [List.length_cons, Nat.succ_lt_succ_iff] at h
          simpa using ih j h

/-- Updating one allocation does not change another. -/
theorem getD_set_ne {α : Type _} (l : List α) (i j : Nat) (a d : α)
    (h : i ≠ j) : (l.set i a).getD j d = l.getD j d := by
  induction l generalizing i j with
  | nil => rfl
  | cons x xs ih =>
      cases i with
      | zero =>
          cases j with
          | zero => exact absurd rfl h
          | succ k => rfl
      | succ m =>
          cases j with
          | zero => rfl
          | succ k =>
              simpa using ih m k (fun hmk => h (by omega))

/-- Every named level is at least the (default) global level. -/
theorem trace_le_of_mem_namedLevels (c : Level) (hc : c ∈ namedLevels) :
    TraceLevel ≤ c := by
  simp only [namedLevels, List.mem_cons, List.not_mem_nil, or_false] at hc
  rcases hc with h | h | h | h | h | h | h <;> subst h <;> decide

/-- The logger allocated by `New` (read back from the store). -/
theorem loggerAt_New (cfg : Config) (w : World) :
    loggerAt (New cfg w).2 (New cfg w).1 =
      { level := cfg.level
        ctxFields := [("service", GoValue.str
          (if cfg.serviceName = "" then "UNKNOWN-SERVICE" else cfg.serviceName))]
        withCaller := cfg.withCaller
        pretty := cfg.pretty
        output := cfg.output.getD stderrSink
        serviceName :=
          if cfg.serviceName = "" then "UNKNOWN-SERVICE" else cfg.serviceName } := by
  unfold New loggerAt
  exact getD_append_length _ _ _ _

/-- The child allocated by `WithFields` (read back from the store). -/
theorem loggerAt_withFields_child (w : World) (p : Nat) (fs : List (String × GoValue)) :
    loggerAt (WithFields w p fs).2 (WithFields w p fs).1 =
      { loggerAt w p with ctxFields := (loggerAt w p).ctxFields ++ fs } := by
  unfold WithFields loggerAt
  exact getD_append_length _ _ _ _

/-- `WithFields` leaves every existing allocation unchanged. -/
theorem loggerAt_withFields_old (w : World) (p : Nat) (fs : List (String × GoValue))
    (i : Nat) (hi : i < w.loggers.length) :
    loggerAt (WithFields w p fs).2 i = loggerAt w i := by
  unfold WithFields loggerAt
  exact getD_append_lt _ _ _ _ hi

/-- `SetServiceName` on one allocation leaves every other unchanged. -/
theorem loggerAt_setServiceName_ne (w : World) (i j : Nat) (n : String) (h : i ≠ j) :
    loggerAt (SetServiceName w i n) j = loggerAt w j := by
  unfold SetServiceName loggerAt
  exact getD_set_ne _ _ _ _ _ h

/-- `SetLevel` on one allocation leaves every other unchanged. -/
theorem loggerAt_setLevel_ne (w : World) (i j : Nat) (lv : Level) (h : i ≠ j) :
    loggerAt (SetLevel w i lv) j = loggerAt w j := by
  unfold SetLevel loggerAt
  exact getD_set_ne _ _ _ _ _ h

/-- `Msg` only depends on the dereferenced logger and the global
time-field format. -/
theorem Msg_congr (w1 w2 : World) (i j : Nat)
    (h : loggerAt w1 i = loggerAt w2 j) (ht : w1.timeFieldFormat = w2.timeFieldFormat)
    (c : Level) (bf : List (String × GoValue)) (t : String) (args : List GoValue) :
    Msg w1 i c bf t args = Msg w2 j c bf t args := by
  unfold Msg
  rw [h, ht]

/-- A record is committed exactly when the candidate level passes the
logger's threshold and the (default) global level. -/
theorem Msg_isSome_iff (w : World) (i : Nat) (c : Level)
    (bf : List (String × GoValue)) (t : String) (args : List GoValue) :
    (Msg w i c bf t args).isSome ↔ ((loggerAt w i).level ≤ c ∧ TraceLevel ≤ c) := by
  unfold Msg
  by_cases h : (loggerAt w i).level ≤ c ∧ TraceLevel ≤ c <;> simp [h]

/-- A template without any `%` directive passes through `Sprintf`
unchanged when there are no arguments. -/
theorem runFmt_no_directive (cs : List Char) (h : ∀ ch ∈ cs, ch ≠ '%') :
    runFmt cs [] = cs := by
  induction cs with
  | nil => rfl
  | cons c rest ih =>
      have hc : c ≠ '%' := h c (by simp)
      rw [runFmt.eq_def]
      simp only [if_neg hc]
      rw [ih (fun ch hch => h ch (by simp [hch]))]

/-- Claim C6: for every level of the closed set, `ParseLevel` inverts
`Level.String` (returning a nil error), and for every string whose
lowercasing is not a recognised name (with both "warn" and "warning"
accepted), `ParseLevel` returns an invalid-level error; as a total Lean
function it never crashes. -/
theorem parseLevel_roundtrip_and_invalid :
    (∀ l ∈ namedLevels, ParseLevel (levelString l) = (l, none))
    ∧ ∀ s : String, toLowerGo s ∉ recognizedNames → (ParseLevel s).2.isSome := by
  constructor
  · intro l hl
    simp only [namedLevels, List.mem_cons, List.not_mem_nil, or_false] at hl
    rcases hl with h | h | h | h | h | h | h <;> subst h <;> decide
  · intro s hs
    simp only [recognizedNames, List.mem_cons, List.not_mem_nil, or_false, not_or] at hs
    obtain ⟨h1, h2, h3, h4, h5, h6, h7, h8⟩ := hs
    simp [ParseLevel, h1, h2, h3, h4, h5, h6, h7, h8]

/-- Witness for C6 at `WarnLevel` and at the unrecognised string "bogus". -/
theorem parseLevel_roundtrip_and_invalid_witness :
    ParseLevel (levelString WarnLevel) = (WarnLevel, none)
    ∧ (ParseLevel "bogus").2.isSome :=
  ⟨parseLevel_roundtrip_and_invalid.1 WarnLevel (by decide),
   parseLevel_roundtrip_and_invalid.2 "bogus" (by decide)⟩

/-- Claim C10: on every string whose lowercasing is not a recognised
level name, `ParseLevel` returns exactly the pair of the fallback
`InfoLevel` and a non-nil invalid-level error. -/
theorem parseLevel_error_component_is_info (s : String)
    (h : toLowerGo s ∉ recognizedNames) :
    ParseLevel s = (InfoLevel, some ("invalid log level: " ++ toLowerGo s)) := by
  simp only [recognizedNames, List.mem_cons, List.not_mem_nil, or_false, not_or] at h
  obtain ⟨h1, h2, h3, h4, h5, h6, h7, h8⟩ := h
  simp [ParseLevel, h1, h2, h3, h4, h5, h6, h7, h8]

/-- Witness for C10 at the unrecognised string "verbose". -/
theorem parseLevel_error_component_is_info_witness :
    ParseLevel "verbose" = (InfoLevel, some ("invalid log level: " ++ toLowerGo "verbose")) :=
  parseLevel_error_component_is_info "verbose" (by decide)

/-- Claim C5: a `Logger` built with minimum level `l2` drops a record
committed at a strictly lower named level `l1` (nothing reaches the
sink) and emits one committed at `l2`; in general, for every named
candidate level, a record is emitted iff `candidate >= threshold`. -/
theorem level_filtering (w : World) (cfg : Config)
    (bf : List (String × GoValue)) (t : String) (args : List GoValue)
    (l1 l2 : Level) (h1 : l1 ∈ namedLevels) (h2 : l2 ∈ namedLevels)
    (hlt : l1 < l2) (hcfg : cfg.level = l2) :
    Msg (New cfg w).2 (New cfg w).1 l1 bf t args = none
    ∧ (Msg (New cfg w).2 (New cfg w).1 l2 bf t args).isSome
    ∧ ∀ c ∈ namedLevels,
        ((Msg (New cfg w).2 (New cfg w).1 c bf t args).isSome ↔ l2 ≤ c) := by
  have hlog : (loggerAt (New cfg w).2 (New cfg w).1).level = l2 := by
    rw [loggerAt_New]
    exact hcfg
  refine ⟨?_, ?_, ?_⟩
  · rw [← Option.not_isSome_iff_eq_none, Msg_isSome_iff, hlog]
    intro hcontra
    exact absurd hcontra.1 (not_le.mpr hlt)
  · rw [Msg_isSome_iff, hlog]
    exact ⟨le_refl l2, trace_le_of_mem_namedLevels l2 h2⟩
  · intro c hc
    rw [Msg_isSome_iff, hlog]
    exact ⟨fun h => h.1, fun h => ⟨h, trace_le_of_mem_namedLevels c hc⟩⟩

/-- Witness for C5: a logger at minimum level Warn drops an Info record,
emits a Warn record, and the general criterion instantiated at Error. -/
theorem level_filtering_witness :
    Msg (New { level := WarnLevel, pretty := false, withCaller := false,
               output := some 1, timeFormat := rfc3339, serviceName := "svc" } world0).2
        (New { level := WarnLevel, pretty := false, withCaller := false,
               output := some 1, timeFormat := rfc3339, serviceName := "svc" } world0).1
        InfoLevel [] "x" [] = none
    ∧ (Msg (New { level := WarnLevel, pretty := false, withCaller := false,
                  output := some 1, timeFormat := rfc3339, serviceName := "svc" } world0).2
          (New { level := WarnLevel, pretty := false, withCaller := false,
                 output := some 1, timeFormat := rfc3339, serviceName := "svc" } world0).1
          WarnLevel [] "y" []).isSome
    ∧ ((Msg (New { level := WarnLevel, pretty := false, withCaller := false,
                   output := some 1, timeFormat := rfc3339, serviceName := "svc" } world0).2
          (New { level := WarnLevel, pretty := false, withCaller := false,
                 output := some 1, timeFormat := rfc3339, serviceName := "svc" } world0).1
          ErrorLevel [] "z" []).isSome ↔ WarnLevel ≤ ErrorLevel) :=
  ⟨(level_filtering world0 _ [] "x" [] InfoLevel WarnLevel
      (by decide) (by decide) (by decide) rfl).1,
   (level_filtering world0 _ [] "y" [] InfoLevel WarnLevel
      (by decide) (by decide) (by decide) rfl).2.1,
   (level_filtering world0 _ [] "z" [] InfoLevel WarnLevel
      (by decide) (by decide) (by decide) rfl).2.2 ErrorLevel (by decide)⟩

/-!  ### Claim C1 — `SetServiceName` and emitted records.

The configuration used by the C1 scenario: a logger built with service
name "svc-a", whose service name is then set to "svc-b". -/

def c1Setup : Nat × World :=
  New { level := InfoLevel, pretty := false, withCaller := false,
        output := some 1, timeFormat := rfc3339, serviceName := "svc-a" } world0

def c1After : World := SetServiceName c1Setup.2 c1Setup.1 "svc-b"

/-- Claim C1 (code bug, evaluated at the failing input): after
`SetServiceName("svc-b")` on a logger built with service name "svc-a",
`ServiceName()` reports "svc-b", yet a record emitted afterwards still
carries `service = "svc-a"` — the `service` entry was frozen into the
zerolog context by `New` and `SetServiceName` only assigns the separate
struct field, so the late-binding identity promised by the README and
the spec does not reach the output. -/
theorem setServiceName_stale_record :
    ServiceName c1After c1Setup.1 = "svc-b"
    ∧ (Msg c1After c1Setup.1 InfoLevel [] "hello" []).map
        (fun r => r.fields.lookup "service") = some (some (GoValue.str "svc-a")) := by
  decide

/-!  ### Claim C2 — `Msg` and printf interpolation. -/

def c2Setup : Nat × World :=
  New { level := DebugLevel, pretty := false, withCaller := false,
        output := some 1, timeFormat := rfc3339, serviceName := "svc" } world0

/-- Counterexample to C2 as stated: with an empty argument list the
template is still fed through `Sprintf`, so `Msg("progress %d")` emits
"progress %!d(MISSING)" rather than the verbatim template. -/
theorem msg_empty_args_not_verbatim :
    (Msg c2Setup.2 c2Setup.1 InfoLevel [] "progress %d" []).map Record.message
        = some "progress %!d(MISSING)"
    ∧ ("progress %!d(MISSING)" : String) ≠ "progress %d" := by
  decide

/-- Claim C2 as amended: `Msg(t, args...)` always applies printf-style
interpolation (`fmt.Sprintf`), even when `args` is empty; consequently a
template containing no `%` directive is used verbatim when `args` is
empty, but a directive is interpreted regardless. -/
theorem msg_always_sprintf (w : World) (i : Nat) (c : Level)
    (bf : List (String × GoValue)) (t : String) (args : List GoValue)
    (hc : (loggerAt w i).level ≤ c) (hg : TraceLevel ≤ c) :
    (Msg w i c bf t args).map Record.message = some (sprintf t args)
    ∧ ((∀ ch ∈ t.data, ch ≠ '%') → sprintf t [] = t) := by
  constructor
  · unfold Msg
    rw [if_pos ⟨hc, hg⟩]
    rfl
  · intro hch
    show (⟨runFmt t.data []⟩ : String) = t
    rw [runFmt_no_directive t.data hch]

/-- Witness for the amended C2: a directive interpolates a supplied
argument, and a directive-free template with no arguments is verbatim. -/
theorem msg_always_sprintf_witness :
    (Msg c2Setup.2 c2Setup.1 InfoLevel [] "Value: %d" [GoValue.int 42]).map Record.message
        = some (sprintf "Value: %d" [GoValue.int 42])
    ∧ sprintf "hello" [] = "hello" :=
  ⟨(msg_always_sprintf c2Setup.2 c2Setup.1 InfoLevel [] "Value: %d" [GoValue.int 42]
      (by decide) (by decide)).1,
   (msg_always_sprintf c2Setup.2 c2Setup.1 InfoLevel [] "hello" []
      (by decide) (by decide)).2 (by decide)⟩

/-!  ### Claim C3 — construction-time resolution of missing fields. -/

def c3Cfg : Config :=
  { level := InfoLevel, pretty := false, withCaller := false,
    output := none, timeFormat := "", serviceName := "" }

/-- Counterexample to C3 as stated: `New` with an empty `TimeFormat`
leaves the package-global time-field format empty — it is not resolved
to the default layout (`DefaultConfig`'s RFC3339); a record committed
afterwards renders its timestamp with that empty format (which zerolog
interprets as Unix-seconds rendering, not a default layout). -/
theorem new_empty_timeFormat_not_defaulted :
    (New c3Cfg world0).2.timeFieldFormat = ""
    ∧ ("" : String) ≠ DefaultConfig.timeFormat
    ∧ (Msg (New c3Cfg world0).2 (New c3Cfg world0).1 InfoLevel [] "m" []).map
        Record.timeFormat = some "" := by
  decide

/-- Claim C3 as amended: `New` resolves a nil output sink to the
standard error stream and an empty service name to "UNKNOWN-SERVICE"
(non-empty values pass through), but the timestamp format is assigned to
the global time-field state exactly as configured — an empty format is
not replaced by a default. -/
theorem new_resolution (cfg : Config) (w : World) :
    (cfg.output = none → (loggerAt (New cfg w).2 (New cfg w).1).output = stderrSink)
    ∧ (∀ o, cfg.output = some o → (loggerAt (New cfg w).2 (New cfg w).1).output = o)
    ∧ (cfg.serviceName = "" →
        (loggerAt (New cfg w).2 (New cfg w).1).serviceName = "UNKNOWN-SERVICE")
    ∧ (cfg.serviceName ≠ "" →
        (loggerAt (New cfg w).2 (New cfg w).1).serviceName = cfg.serviceName)
    ∧ (New cfg w).2.timeFieldFormat = cfg.timeFormat := by
  have h := loggerAt_New cfg w
  refine ⟨?_, ?_, ?_, ?_, rfl⟩
  · intro ho
    rw [h]
    simp [ho]
  · intro o ho
    rw [h]
    simp [ho]
  · intro hs
    rw [h]
    simp [hs]
  · intro hs
    rw [h]
    simp [hs]

/-- Witness for the amended C3 at a configuration with nil output, empty
service name and empty time format. -/
theorem new_resolution_witness :
    (loggerAt (New c3Cfg world0).2 (New c3Cfg world0).1).output = stderrSink
    ∧ (loggerAt (New c3Cfg world0).2 (New c3Cfg world0).1).serviceName = "UNKNOWN-SERVICE"
    ∧ (New c3Cfg world0).2.timeFieldFormat = c3Cfg.timeFormat :=
  ⟨(new_resolution c3Cfg world0).1 rfl,
   (new_resolution c3Cfg world0).2.2.1 rfl,
   (new_resolution c3Cfg world0).2.2.2.2⟩

/-!  ### Claim C4 — `WithFields` merging and independence. -/

def c4Parent : Nat × World :=
  New { level := DebugLevel, pretty := false, withCaller := false,
        output := some 1, timeFormat := rfc3339, serviceName := "svc" } world0

def c4Child1 : Nat × World := WithFields c4Parent.2 c4Parent.1 [("a", GoValue.int 1)]

def c4Child2 : Nat × World := WithFields c4Child1.2 c4Child1.1 [("a", GoValue.int 2)]

/-- Counterexample to C4 as stated: a supplied key does not override a
same-named key of the parent's baseline — `Context.Interface` appends,
so after deriving with `a = 1` and again with `a = 2`, the baseline
retains both entries for `a` (the parent's entry is still there and
still serializes first). -/
theorem withFields_no_override :
    ("a", GoValue.int 1) ∈ (loggerAt c4Child2.2 c4Child2.1).ctxFields
    ∧ (loggerAt c4Child2.2 c4Child2.1).ctxFields.filter (fun kv => kv.1 = "a")
        ≠ [("a", GoValue.int 2)] := by
  decide

/-- Claim C4 as amended: `WithFields` returns a new Logger whose
baseline is the parent's baseline with the supplied entries appended
(duplicate keys retained side by side, not replaced); the child is
otherwise identical to the parent (same level, sink, encoding, caller
flag, service name), lives at a fresh address, and the parent's own
state is unchanged by the call — so chained derivations accumulate all
supplied keys while the parent's baseline gains none of them. -/
theorem withFields_appends_baseline (w : World) (p : Nat)
    (fs : List (String × GoValue)) (hp : p < w.loggers.length) :
    loggerAt (WithFields w p fs).2 (WithFields w p fs).1
        = { loggerAt w p with ctxFields := (loggerAt w p).ctxFields ++ fs }
    ∧ loggerAt (WithFields w p fs).2 p = loggerAt w p
    ∧ (WithFields w p fs).1 ≠ p
    ∧ ∀ kv ∈ fs, kv ∈ (loggerAt (WithFields w p fs).2 (WithFields w p fs).1).ctxFields := by
  refine ⟨loggerAt_withFields_child w p fs, loggerAt_withFields_old w p fs p hp, ?_, ?_⟩
  · show w.loggers.length ≠ p
    omega
  · intro kv hkv
    rw [loggerAt_withFields_child w p fs]
    exact List.mem_append_right _ hkv

/-- Witness for the amended C4, deriving twice from a fresh logger: the
grandchild's baseline holds both supplied keys, the parent's holds
neither, and all other parent state is untouched. -/
theorem withFields_appends_baseline_witness :
    loggerAt c4Child1.2 c4Child1.1
        = { loggerAt c4Parent.2 c4Parent.1 with
            ctxFields := (loggerAt c4Parent.2 c4Parent.1).ctxFields ++ [("a", GoValue.int 1)] }
    ∧ loggerAt c4Child1.2 c4Parent.1 = loggerAt c4Parent.2 c4Parent.1
    ∧ c4Child1.1 ≠ c4Parent.1
    ∧ ("a", GoValue.int 1) ∈ (loggerAt c4Child1.2 c4Child1.1).ctxFields :=
  ⟨(withFields_appends_baseline c4Parent.2 c4Parent.1 [("a", GoValue.int 1)] (by decide)).1,
   (withFields_appends_baseline c4Parent.2 c4Parent.1 [("a", GoValue.int 1)] (by decide)).2.1,
   (withFields_appends_baseline c4Parent.2 c4Parent.1 [("a", GoValue.int 1)] (by decide)).2.2.1,
   (withFields_appends_baseline c4Parent.2 c4Parent.1 [("a", GoValue.int 1)] (by decide)).2.2.2
     ("a", GoValue.int 1) (by decide)⟩

/-- Claim C7: service-name mutation does not cross the parent/child
boundary — after deriving a child with `WithFields`, `SetServiceName`
on the parent leaves the child's service name unchanged, and
`SetServiceName` on the child leaves the parent's unchanged. -/
theorem setServiceName_parent_child_independent (w : World) (p : Nat)
    (fs : List (String × GoValue)) (n : String) (hp : p < w.loggers.length) :
    ServiceName (SetServiceName (WithFields w p fs).2 p n) (WithFields w p fs).1
        = ServiceName (WithFields w p fs).2 (WithFields w p fs).1
    ∧ ServiceName (SetServiceName (WithFields w p fs).2 (WithFields w p fs).1 n) p
        = ServiceName (WithFields w p fs).2 p := by
  have hne : p ≠ (WithFields w p fs).1 := by
    show p ≠ w.loggers.length
    omega
  constructor
  · show (loggerAt (SetServiceName (WithFields w p fs).2 p n) (WithFields w p fs).1).serviceName
        = (loggerAt (WithFields w p fs).2 (WithFields w p fs).1).serviceName
    rw [loggerAt_setServiceName_ne _ _ _ _ hne]
  · show (loggerAt (SetServiceName (WithFields w p fs).2 (WithFields w p fs).1 n) p).serviceName
        = (loggerAt (WithFields w p fs).2 p).serviceName
    rw [loggerAt_setServiceName_ne _ _ _ _ (Ne.symm hne)]

/-- Witness for C7 on a concrete parent/child pair. -/
theorem setServiceName_parent_child_independent_witness :
    ServiceName (SetServiceName (WithFields c4Parent.2 c4Parent.1 []).2 c4Parent.1 "renamed")
        (WithFields c4Parent.2 c4Parent.1 []).1
      = ServiceName (WithFields c4Parent.2 c4Parent.1 []).2
          (WithFields c4Parent.2 c4Parent.1 []).1
    ∧ ServiceName (SetServiceName (WithFields c4Parent.2 c4Parent.1 []).2
          (WithFields c4Parent.2 c4Parent.1 []).1 "renamed") c4Parent.1
      = ServiceName (WithFields c4Parent.2 c4Parent.1 []).2 c4Parent.1 :=
  ⟨(setServiceName_parent_child_independent c4Parent.2 c4Parent.1 [] "renamed" (by decide)).1,
   (setServiceName_parent_child_independent c4Parent.2 c4Parent.1 [] "renamed" (by decide)).2⟩

/-- Claim C8: `SetLevel` on the parent after a child has been derived
does not change the child at all — its stored state is identical, and
every subsequent commit through the child produces exactly the same
result (same emit/drop decision, same record) as before the call. -/
theorem setLevel_parent_not_child (w : World) (p : Nat)
    (fs : List (String × GoValue)) (lv : Level) (hp : p < w.loggers.length) :
    loggerAt (SetLevel (WithFields w p fs).2 p lv) (WithFields w p fs).1
        = loggerAt (WithFields w p fs).2 (WithFields w p fs).1
    ∧ ∀ c bf t args,
        Msg (SetLevel (WithFields w p fs).2 p lv) (WithFields w p fs).1 c bf t args
          = Msg (WithFields w p fs).2 (WithFields w p fs).1 c bf t args := by
  have hne : p ≠ (WithFields w p fs).1 := by
    show p ≠ w.loggers.length
    omega
  have hl := loggerAt_setLevel_ne (WithFields w p fs).2 p (WithFields w p fs).1 lv hne
  exact ⟨hl, fun c bf t args => Msg_congr _ _ _ _ hl rfl c bf t args⟩

/-- Witness for C8 on a concrete parent/child pair: the parent's level
is raised to Panic, yet the child still emits an Info record. -/
theorem setLevel_parent_not_child_witness :
    loggerAt (SetLevel (WithFields c4Parent.2 c4Parent.1 []).2 c4Parent.1 PanicLevel)
        (WithFields c4Parent.2 c4Parent.1 []).1
      = loggerAt (WithFields c4Parent.2 c4Parent.1 []).2 (WithFields c4Parent.2 c4Parent.1 []).1
    ∧ Msg (SetLevel (WithFields c4Parent.2 c4Parent.1 []).2 c4Parent.1 PanicLevel)
          (WithFields c4Parent.2 c4Parent.1 []).1 InfoLevel [] "m" []
      = Msg (WithFields c4Parent.2 c4Parent.1 []).2
          (WithFields c4Parent.2 c4Parent.1 []).1 InfoLevel [] "m" [] :=
  ⟨(setLevel_parent_not_child c4Parent.2 c4Parent.1 [] PanicLevel (by decide)).1,
   (setLevel_parent_not_child c4Parent.2 c4Parent.1 [] PanicLevel (by decide)).2
     InfoLevel [] "m" []⟩

/-- Claim C9: `New` assigns the configured timestamp format to
package-global state shared by all loggers — after a second logger is
built with a different format, a record committed through the first
logger is rendered with the second configuration's format (and no
longer with its own, when the two differ). -/
theorem new_mutates_global_timeFormat (w : World) (cfg1 cfg2 : Config) :
    (New cfg1 w).2.timeFieldFormat = cfg1.timeFormat
    ∧ (New cfg2 (New cfg1 w).2).2.timeFieldFormat = cfg2.timeFormat
    ∧ ∀ c bf t args r,
        Msg (New cfg2 (New cfg1 w).2).2 (New cfg1 w).1 c bf t args = some r →
          r.timeFormat = cfg2.timeFormat
          ∧ (cfg1.timeFormat ≠ cfg2.timeFormat → r.timeFormat ≠ cfg1.timeFormat) := by
  refine ⟨rfl, rfl, ?_⟩
  intro c bf t args r h
  simp only [Msg] at h
  split at h
  · cases h
    exact ⟨rfl, fun hne => fun hcontra => hne (hcontra ▸ rfl)⟩
  · cases h

/-- Witness for C9: the first logger is built with format "T1", the
second with "T2"; a record then committed through the first logger
carries format "T2". -/
theorem new_mutates_global_timeFormat_witness :
    (New { level := InfoLevel, pretty := false, withCaller := false,
           output := some 1, timeFormat := "T1", serviceName := "one" } world0).2.timeFieldFormat
        = "T1"
    ∧ ({ level := InfoLevel, fields := [("service", GoValue.str "one")],
         message := "m", timeFormat := "T2" } : Record).timeFormat = "T2" :=
  ⟨(new_mutates_global_timeFormat world0
      { level := InfoLevel, pretty := false, withCaller := false,
        output := some 1, timeFormat := "T1", serviceName := "one" }
      { level := InfoLevel, pretty := false, withCaller := false,
        output := some 2, timeFormat := "T2", serviceName := "two" }).1,
   ((new_mutates_global_timeFormat world0
      { level := InfoLevel, pretty := false, withCaller := false,
        output := some 1, timeFormat := "T1", serviceName := "one" }
      { level := InfoLevel, pretty := false, withCaller := false,
        output := some 2, timeFormat := "T2", serviceName := "two" }).2.2
      InfoLevel [] "m" [] _ (by decide)).1⟩
